import Mathlib

/-!
Verification development for the `react-redux-connector` library
(`src/index.js`).  The library is a set of stateless helpers over plain
JavaScript objects: a namespaced reducer factory, a reducer combiner, a
config-validation helper, a namespace connector factory (with its state and
dispatch mapping helpers), and a connector combiner.

JavaScript objects with string keys are embedded as association lists
(`Obj V`), preserving insertion order exactly as JS object key order is
preserved for string keys.  Property read is `objLookup`, property write is
`objSet` (updates the value in place if the key exists, otherwise appends —
matching JS assignment semantics), and `Object.assign` is `objAssign` /
`objAssignSpread`.  Side effects are made explicit: `console.warn` output is
collected in a returned list of warning strings, and a `throw` is an
`Except.error` carrying the error message.  Since `Object.assign()` with an
empty argument list throws a `TypeError`, the spread form returns `Except`.
-/

/-- A JavaScript object with string keys, in insertion order. -/
abbrev Obj (V : Type) : Type := List (String × V)

/-- Property read: value at the first (hence, for a JS object, the only)
occurrence of the key. -/
def objLookup {V : Type} (o : Obj V) (k : String) : Option V :=
  (o.find? (fun p => p.1 == k)).map Prod.snd

/-- Key-presence test (`key in obj`, `Object.keys(obj).includes(key)`,
`Immutable.Map.has`). -/
def objHas {V : Type} (o : Obj V) (k : String) : Bool :=
  o.any (fun p => p.1 == k)

/-- Property write `obj[k] = v`: replaces the value at an existing key in
place, otherwise appends the new key at the end, as JS assignment does. -/
def objSet {V : Type} (o : Obj V) (k : String) (v : V) : Obj V :=
  if objHas o k then o.map (fun p => if p.1 == k then (k, v) else p)
  else o ++ [(k, v)]

/-- `Object.assign(target, src)`: copies the entries of `src` onto `target`
in order. -/
def objAssign {V : Type} (target src : Obj V) : Obj V :=
  src.foldl (fun acc p => objSet acc p.1 p.2) target

/-- `Object.assign(...objs)`: the first object is the target, the rest are
merged onto it left to right.  With no arguments at all, `Object.assign`
throws a `TypeError`. -/
def objAssignSpread {V : Type} : List (Obj V) → Except String (Obj V)
  | [] => .error "TypeError: Cannot convert undefined or null to object"
  | target :: sources => .ok (sources.foldl objAssign target)

/-- The keys of an object are pairwise distinct.  Every object built from
`[]` by `objSet` writes satisfies this, as every real JS object does. -/
def NodupKeys {V : Type} (o : Obj V) : Prop :=
  (o.map Prod.fst).Nodup

instance {V : Type} (o : Obj V) : Decidable (NodupKeys o) :=
  inferInstanceAs (Decidable (o.map Prod.fst).Nodup)

theorem objLookup_nil {V : Type} (k : String) :
    objLookup ([] : Obj V) k = none := rfl

theorem objLookup_cons {V : Type} (p : String × V) (o : Obj V) (k : String) :
    objLookup (p :: o) k = if p.1 = k then some p.2 else objLookup o k := by
  by_cases h : p.1 = k <;> simp [objLookup, h]

theorem objLookup_append {V : Type} (o₁ o₂ : Obj V) (k : String) :
    objLookup (o₁ ++ o₂) k = (objLookup o₁ k).or (objLookup o₂ k) := by
  unfold objLookup
  rw [List.find?_append]
  cases List.find? (fun p => p.1 == k) o₁ <;> simp [Option.or]

theorem objHas_eq_isSome_objLookup {V : Type} (o : Obj V) (k : String) :
    objHas o k = (objLookup o k).isSome := by
  induction o with
  | nil => rfl
  | cons p o ih =>
      by_cases h : p.1 = k
      · simp [objHas, objLookup_cons, h]
      · have hhead : objHas (p :: o) k = objHas o k := by
          simp [objHas, h]
        rw [hhead, objLookup_cons, if_neg h, ih]

theorem objHas_iff_mem_keys {V : Type} (o : Obj V) (k : String) :
    objHas o k = true ↔ k ∈ o.map Prod.fst := by
  simp only [objHas, List.any_eq_true, beq_iff_eq, List.mem_map]

theorem objLookup_eq_none_of_not_mem {V : Type} (o : Obj V) (k : String)
    (h : k ∉ o.map Prod.fst) : objLookup o k = none := by
  induction o with
  | nil => rfl
  | cons p o ih =>
      simp only [List.map_cons, List.mem_cons, not_or] at h
      simp [objLookup_cons, Ne.symm h.1, ih h.2]

theorem objLookup_map_replace_self {V : Type} (o : Obj V) (k : String) (v : V)
    (h : objHas o k = true) :
    objLookup (o.map (fun p => if p.1 == k then (k, v) else p)) k = some v := by
  induction o with
  | nil => simp [objHas] at h
  | cons p o ih =>
      by_cases hp : p.1 = k
      · simp [hp, objLookup_cons]
      · have h' : objHas o k = true := by
          simpa [objHas, hp] using h
        have hmap : ((p :: o).map (fun q => if q.1 == k then (k, v) else q))
            = p :: o.map (fun q => if q.1 == k then (k, v) else q) := by
          simp [hp]
        rw [hmap, objLookup_cons, if_neg hp, ih h']

theorem objLookup_map_replace_ne {V : Type} (o : Obj V) (k : String) (v : V)
    (k' : String) (h : k' ≠ k) :
    objLookup (o.map (fun p => if p.1 == k then (k, v) else p)) k'
      = objLookup o k' := by
  induction o with
  | nil => rfl
  | cons p o ih =>
      by_cases hp : p.1 = k
      · have hmap : ((p :: o).map (fun q => if q.1 == k then (k, v) else q))
            = (k, v) :: o.map (fun q => if q.1 == k then (k, v) else q) := by
          simp [hp]
        rw [hmap, objLookup_cons, if_neg (fun hk => h hk.symm), ih,
          objLookup_cons, if_neg (fun hpk => h (hp ▸ hpk).symm)]
      · have hmap : ((p :: o).map (fun q => if q.1 == k then (k, v) else q))
            = p :: o.map (fun q => if q.1 == k then (k, v) else q) := by
          simp [hp]
        rw [hmap, objLookup_cons, ih, objLookup_cons]

theorem objLookup_objSet {V : Type} (o : Obj V) (k : String) (v : V)
    (k' : String) :
    objLookup (objSet o k v) k' = if k' = k then some v else objLookup o k' := by
  by_cases hhas : objHas o k
  · rw [objSet, if_pos hhas]
    by_cases hk : k' = k
    · subst hk
      rw [if_pos rfl, objLookup_map_replace_self o k' v hhas]
    · rw [if_neg hk, objLookup_map_replace_ne o k v k' hk]
  · have hnone : objLookup o k = none := by
      cases hlo : objLookup o k with
      | none => rfl
      | some w =>
          exact absurd (by rw [objHas_eq_isSome_objLookup, hlo]; rfl) hhas
    rw [objSet, if_neg hhas, objLookup_append]
    by_cases hk : k' = k
    · subst hk
      rw [if_pos rfl, hnone]
      simp [objLookup_cons, Option.or]
    · rw [if_neg hk]
      have hsingle : objLookup [(k, v)] k' = none := by
        rw [objLookup_cons, if_neg (fun hkk => hk hkk.symm)]
        rfl
      rw [hsingle]
      cases objLookup o k' <;> rfl

theorem keys_map_replace {V : Type} (o : Obj V) (k : String) (v : V) :
    ((o.map (fun p => if p.1 == k then (k, v) else p)).map Prod.fst)
      = o.map Prod.fst := by
  induction o with
  | nil => rfl
  | cons p o ih =>
      simp only [List.map_cons]
      rw [ih]
      by_cases hp : p.1 = k
      · rw [if_pos (by simp [hp])]
        simp [hp]
      · rw [if_neg (by simp [hp])]

theorem nodupKeys_objSet {V : Type} (o : Obj V) (k : String) (v : V)
    (h : NodupKeys o) : NodupKeys (objSet o k v) := by
  by_cases hhas : objHas o k
  · unfold NodupKeys objSet
    rw [if_pos hhas, keys_map_replace]
    exact h
  · have hnot : k ∉ o.map Prod.fst := fun hmem =>
      hhas ((objHas_iff_mem_keys o k).mpr hmem)
    unfold NodupKeys objSet
    rw [if_neg hhas, List.map_append]
    rw [List.nodup_append]
    refine ⟨h, by simp, ?_⟩
    intro a ha hb
    simp only [List.map_cons, List.map_nil, List.mem_singleton] at hb
    subst hb
    exact hnot ha

theorem objLookup_objAssign {V : Type} (t src : Obj V) (k : String)
    (hsrc : NodupKeys src) :
    objLookup (objAssign t src) k = (objLookup src k).or (objLookup t k) := by
  induction src generalizing t with
  | nil => simp [objAssign, objLookup_nil, Option.or]
  | cons p src ih =>
      have hsrc' : (p.1 :: src.map Prod.fst).Nodup := by
        simpa only [NodupKeys, List.map_cons] using hsrc
      have hcons := List.nodup_cons.mp hsrc'
      have hn : NodupKeys src := hcons.2
      have hnotmem : p.1 ∉ src.map Prod.fst := hcons.1
      have hstep : objAssign t (p :: src) = objAssign (objSet t p.1 p.2) src := rfl
      rw [hstep, ih _ hn, objLookup_cons]
      by_cases hk : p.1 = k
      · subst hk
        rw [if_pos rfl, objLookup_eq_none_of_not_mem src p.1 hnotmem,
          objLookup_objSet, if_pos rfl]
        rfl
      · rw [if_neg hk, objLookup_objSet, if_neg (fun h => hk h.symm)]

theorem objLookup_foldl_objAssign {V : Type} (os : List (Obj V)) (t : Obj V)
    (k : String) (h : ∀ o ∈ os, NodupKeys o) :
    objLookup (os.foldl objAssign t) k
      = (os.reverse.findSome? fun o => objLookup o k).or (objLookup t k) := by
  induction os generalizing t with
  | nil => simp [Option.or]
  | cons o os ih =>
      have ho : NodupKeys o := h o (by simp)
      have hos : ∀ o' ∈ os, NodupKeys o' := fun o' ho' => h o' (by simp [ho'])
      rw [List.foldl_cons, ih _ hos, objLookup_objAssign _ _ _ ho,
        List.reverse_cons, List.findSome?_append]
      cases hfs : os.reverse.findSome? (fun o' => objLookup o' k) <;>
        cases hko : objLookup o k <;>
        simp [hko, Option.or]

/-! ## Namespaced Reducer Factory (`createNamespacedReducer`, src/index.js 45-54) -/

/-- A Redux action: a record with a `type` discriminant string and an
arbitrary payload. -/
structure ReduxAction (P : Type) where
  type : String
  payload : P

/-- The value returned by `createNamespacedReducer`: the reducer function
together with the `reduxNamespace` property the factory attaches to it. -/
structure NamespacedReducer (S P : Type) where
  run : Option S → ReduxAction P → S
  reduxNamespace : String

/-- `createNamespacedReducer(namespace, initialState, reducerFunctions)`
(src/index.js 45-54).  The returned reducer defaults `state` to
`initialState` when it is `undefined` (modelled as `none`), looks up
`reducerFunctions[action.type]` (the table holds functions, which are
truthy), applies it to `(state, action)` when present, and otherwise
returns `state` unchanged.  The namespace is attached as `reduxNamespace`. -/
def createNamespacedReducer {S P : Type} (namespace_ : String) (initialState : S)
    (reducerFunctions : Obj (S → ReduxAction P → S)) : NamespacedReducer S P :=
  { run := fun state? action =>
      let state := state?.getD initialState
      match objLookup reducerFunctions action.type with
      | some f => f state action
      | none => state
    reduxNamespace := namespace_ }

/-! ## Reducer Combiner (`combineNamespacedReducers`, src/index.js 84-93) -/

/-- The `reduce` step of `combineNamespacedReducers`: builds the object
mapping the `reduxNamespace` tag of each reducer to the reducer itself, by plain
JS property assignment (so a repeated namespace silently overwrites the
earlier entry). -/
def indexReduxReducers {S P : Type} (reduxReducers : List (NamespacedReducer S P)) :
    Obj (NamespacedReducer S P) :=
  reduxReducers.foldl
    (fun indexedReduxReducers reduxReducer =>
      objSet indexedReduxReducers reduxReducer.reduxNamespace reduxReducer)
    []

/-- `combineNamespacedReducers(...reduxReducers)` (src/index.js 84-93):
hands the namespace-indexed object to the Redux `combineReducers`.
`combineReducers` comes from the external `redux` package, so it is taken
here as a parameter. -/
def combineNamespacedReducers {S P R : Type}
    (combineReducers : Obj (NamespacedReducer S P) → R)
    (reduxReducers : List (NamespacedReducer S P)) : R :=
  combineReducers (indexReduxReducers reduxReducers)

/-! ## Parameter-Validation Helper (`checkConfigPrerequisiteSatisfied`,
src/index.js 113-140) -/

/-- A value held in a `config` object: either a JS string or some other
kind of value (`typeof v` not equal to `"string"`). -/
inductive ConfigVal : Type
  | str (s : String)
  | other

/-- The `config` argument: either an object (string-keyed) or a value with
`typeof config` not equal to `"object"` (undefined, number, string, function, ...).
`null` (for which `typeof null` is `"object"` but property access throws a
`TypeError`) is outside the modelled domain. -/
inductive ConfigArg : Type
  | obj (entries : Obj ConfigVal)
  | notObject

/-- `checkConfigPrerequisiteSatisfied(connectorName, propName,
requiredConfigName, config)` (src/index.js 113-140).  A falsy string is the
empty string.  Each of the three guarded statements in the source
evaluates a `missingParams.concat(...)` call; `Array.prototype.concat` returns a
fresh array without mutating its receiver, and the result of the expression
statement is discarded, so `missingParams` is still `[]` when
`missingParams.length` is tested.  The discarded concat results appear here
as unused `let` bindings. -/
def checkConfigPrerequisiteSatisfied (connectorName propName requiredConfigName : String)
    (config : ConfigArg) : Except String Unit :=
  let missingParams : List String := []
  let _ := if connectorName = "" then missingParams ++ ["connectorName"] else missingParams
  let _ := if propName = "" then missingParams ++ ["propName"] else missingParams
  let _ := if requiredConfigName = "" then missingParams ++ ["requiredConfigName"] else missingParams
  if missingParams.length ≠ 0 then
    .error ("Invalid call to react-redux-connector\x27s isConfigPrerequisiteSatisfied function.  No value specified for param(s): "
      ++ String.intercalate ", " missingParams)
  else
    match config with
    | .notObject =>
        .error ("In `" ++ propName ++ "` override in `connectProductListProductsModel`.  Config property `"
          ++ requiredConfigName ++ "` is required but not specified")
    | .obj entries =>
        match objLookup entries requiredConfigName with
        | some (.str _) => .ok ()
        | _ =>
            .error ("In `" ++ propName ++ "` override in `connectProductListProductsModel`.  Config property `"
              ++ requiredConfigName ++ "` is required but not specified")

/-! ## Renaming directive and connector entries (src/index.js 144-149) -/

/-- The `AsPropRenamer` helper class (src/index.js 144-149). -/
structure AsPropRenamer : Type where
  actionOrStateIndex : String
  propName : String

/-- An element of a `propsToConnect` / `actionsToConnect` array: either a
plain string or an `AsPropRenamer` instance.  (The source distinguishes the
two at runtime with a `typeof` string test and `instanceof`.) -/
inductive ConnectEntry : Type
  | str (s : String)
  | renamer (r : AsPropRenamer)

/-- The JS property key a `propsToConnect` entry turns into when used in a
bracket access or assignment (`propOverrides[propName]`,
`outNewPropsObj[propName] = ...`): a string is used as is, and any other
object is coerced with `toString`, which for a plain `AsPropRenamer`
instance yields `"[object Object]"`. -/
def ConnectEntry.asKey : ConnectEntry → String
  | .str s => s
  | .renamer _ => "[object Object]"

/-- The `propsToConnect` argument of the state mapper: an array of entries,
or any non-array value (`!(propsToConnect instanceof Array)`). -/
inductive PropsToConnect : Type
  | arr (entries : List ConnectEntry)
  | notArray

/-! ## Namespace Connector Factory helpers (src/index.js 153-209) -/

/-- A prop override function `(state, ownProps, config) -> value`.  The
`config` may be `undefined` (`none`) when the mapper is built through the
curried extraction path without a config. -/
abbrev OverrideFn (V OP CV : Type) : Type := Obj V → OP → Option (Obj CV) → V

/-- The global Redux state: namespace string to per-namespace state
container. -/
abbrev GlobalState (V : Type) : Type := Obj (Obj V)

/-- The callback of the `propsToConnect.reduce` in
`createMapStateToPropsFunc` (src/index.js 166-191), applied to one
requested entry.  The accumulator pairs the props object built so far with
the `console.warn` lines emitted so far.  Branch order follows the source:
callable override at the property key of the entry first, then plain-string
state pass-through, then renamer against the state container, then renamer
against `propOverrides`, else a warning. -/
def mapStateReduceStep {V OP CV : Type} (propOverrides : Obj (OverrideFn V OP CV))
    (state : Obj V) (ownProps : OP) (config : Option (Obj CV))
    (acc : Obj V × List String) (propName : ConnectEntry) : Obj V × List String :=
  match objLookup propOverrides propName.asKey with
  | some f => (objSet acc.1 propName.asKey (f state ownProps config), acc.2)
  | none =>
      match propName with
      | .str s =>
          match objLookup state s with
          | some v => (objSet acc.1 s v, acc.2)
          | none =>
              (acc.1, acc.2 ++ ["Warning: Attempted to map invalid state key name " ++ s])
      | .renamer r =>
          match objLookup state r.actionOrStateIndex with
          | some v => (objSet acc.1 r.propName v, acc.2)
          | none =>
              match objLookup propOverrides r.actionOrStateIndex with
              | some f => (objSet acc.1 r.propName (f state ownProps config), acc.2)
              | none =>
                  (acc.1, acc.2 ++ ["Warning: Attempted to map invalid state key name "
                    ++ r.actionOrStateIndex])

/-- `createMapStateToPropsFunc(reduxNamespace, propOverrides, propsToConnect,
config)` (src/index.js 153-192), with the produced `mapStateToProps`
function applied to `(globalState, ownProps)`.  Destructures the namespace
slice out of the global state; a missing (falsy) slice throws.  A non-array
`propsToConnect` yields `{}`.  Otherwise the entries are reduced with
`mapStateReduceStep` starting from `{}`. -/
def createMapStateToPropsFunc {V OP CV : Type} (reduxNamespace : String)
    (propOverrides : Obj (OverrideFn V OP CV)) (propsToConnect : PropsToConnect)
    (config : Option (Obj CV)) (globalState : GlobalState V) (ownProps : OP) :
    Except String (Obj V × List String) :=
  match objLookup globalState reduxNamespace with
  | none =>
      .error ("Unable to find state namespace \x27" ++ reduxNamespace
        ++ "\x27; Perhaps you forgot to add the namespaced reducer to your call to \x27combineNamespacedReducers\x27?")
  | some state =>
      match propsToConnect with
      | .notArray => .ok ([], [])
      | .arr entries =>
          .ok (entries.foldl (mapStateReduceStep propOverrides state ownProps config) ([], []))

/-- The callback of the `actionsToConnect.reduce` in
`createMapDispatchToPropsObj` (src/index.js 197-209), applied to one
requested entry: a plain string present in the action table passes through
verbatim, a renamer whose source key is present passes through under the
target name, anything else warns (`${actionName}` stringifies an
`AsPropRenamer` to `"[object Object]"`). -/
def mapDispatchReduceStep {A : Type} (allActionsObj : Obj A)
    (acc : Obj A × List String) (actionName : ConnectEntry) : Obj A × List String :=
  match actionName with
  | .str s =>
      match objLookup allActionsObj s with
      | some f => (objSet acc.1 s f, acc.2)
      | none => (acc.1, acc.2 ++ ["Warning: Attempted to map invalid action name " ++ s])
  | .renamer r =>
      match objLookup allActionsObj r.actionOrStateIndex with
      | some f => (objSet acc.1 r.propName f, acc.2)
      | none => (acc.1, acc.2 ++ ["Warning: Attempted to map invalid action name [object Object]"])

/-- `createMapDispatchToPropsObj(allActionsObj, actionsToConnect)`
(src/index.js 195-209). -/
def createMapDispatchToPropsObj {A : Type} (allActionsObj : Obj A)
    (actionsToConnect : List ConnectEntry) : Obj A × List String :=
  actionsToConnect.foldl (mapDispatchReduceStep allActionsObj) ([], [])

/-! ## Namespace Connector Factory (`createNamespaceConnector`,
src/index.js 283-307) -/

/-- The value returned by `createNamespaceConnector`: the connector
function itself (whose observable behaviour is the `mapStateToProps` /
`mapDispatchToProps` pair it hands to the external react-redux `connect`)
and the two curried extraction functions attached to it for
`combineConnectors`.  `V` is the type of state values, `OP` the own props
of the component, `CV` the type of config values, and `A` the type of the
dispatch-capable action functions (opaque here; as functions they are
truthy). -/
structure Connector (V OP CV A : Type) : Type where
  call : Option PropsToConnect → Option (List ConnectEntry) → Option (Obj CV) →
    (GlobalState V → OP → Except String (Obj V × List String)) × (Obj A × List String)
  curriedCreateMapStateToProps : PropsToConnect → Option (Obj CV) →
    GlobalState V → OP → Except String (Obj V × List String)
  curriedCreateMapDispatchToProps : Option (List ConnectEntry) → Obj A × List String

/-- `createNamespaceConnector(reduxNamespace, allActionsObj = {},
propOverrides = {})` (src/index.js 283-307).  The direct connector call
has defaults `propsToConnect = []`, `config = {}` (default parameters
replace `undefined`), and replaces a falsy `actionsToConnect` with `[]`
(`actionsToConnect || []`).  The curried extraction functions pass their
arguments through unchanged (no defaults), `curriedCreateMapDispatchToProps`
again applying `|| []`. -/
def createNamespaceConnector {V OP CV A : Type} (reduxNamespace : String)
    (allActionsObj : Obj A := []) (propOverrides : Obj (OverrideFn V OP CV) := []) :
    Connector V OP CV A :=
  { call := fun propsToConnect actionsToConnect config =>
      (createMapStateToPropsFunc reduxNamespace propOverrides
          (propsToConnect.getD (.arr [])) (some (config.getD [])),
        createMapDispatchToPropsObj allActionsObj (actionsToConnect.getD []))
    curriedCreateMapStateToProps := fun propsToConnect config =>
      createMapStateToPropsFunc reduxNamespace propOverrides propsToConnect config
    curriedCreateMapDispatchToProps := fun actionsToConnect =>
      createMapDispatchToPropsObj allActionsObj (actionsToConnect.getD []) }

/-! ## Connector Combiner (`combineConnectors`, src/index.js 411-477) -/

/-- The private accumulator state of one `combineConnectors` invocation:
the ordered list of state-mapper functions, the ordered list of dispatch
objects, and the `console.warn` lines emitted while pushing.  (`mergeProps`
and `options`, set only by the chained `.connect` call and passed opaquely
to the external react-redux `connect`, play no role in the properties below
and are not modelled.) -/
structure CombineState (V OP CV A : Type) : Type where
  stateMappers : List (GlobalState V → OP → Except String (Obj V × List String))
  mappedDispatches : List (Obj A)
  warnLog : List String

/-- The initial accumulators of `combineConnectors` (src/index.js 412-413):
`stateMappers = []` and `mappedDispatches = [{}]` (seeded with one empty
object). -/
def combineStateInit {V OP CV A : Type} : CombineState V OP CV A :=
  { stateMappers := [], mappedDispatches := [[]], warnLog := [] }

/-- `pushFunc(connector, propsToConnect, actionsToConnect, config)`
(src/index.js 443-451).  A falsy `propsToConnect` / `actionsToConnect`
(`none`) skips the corresponding push; note that an empty array is truthy
in JS, so `some (.arr [])` / `some []` do push.  The dispatch push runs
`curriedCreateMapDispatchToProps` immediately, emitting its warnings. -/
def pushFunc {V OP CV A : Type} (st : CombineState V OP CV A)
    (connector : Connector V OP CV A) (propsToConnect : Option PropsToConnect)
    (actionsToConnect : Option (List ConnectEntry)) (config : Option (Obj CV)) :
    CombineState V OP CV A :=
  let st₁ := match propsToConnect with
    | some p =>
        { st with stateMappers :=
            st.stateMappers ++ [connector.curriedCreateMapStateToProps p config] }
    | none => st
  match actionsToConnect with
  | some a =>
      let res := connector.curriedCreateMapDispatchToProps (some a)
      { st₁ with
        mappedDispatches := st₁.mappedDispatches ++ [res.1]
        warnLog := st₁.warnLog ++ res.2 }
  | none => st₁

/-- The `combinedMapStateToPropsFuncs` closure built when the combined
connector is applied to a component (src/index.js 425-431): starts
`mappedStates` as `[{}]`, pushes the result of every state mapper on
`(state, ownProps)` in order (a throwing mapper propagates), and merges
with `Object.assign(...mappedStates)`. -/
def combinedMapStateToPropsFuncs {V OP CV A : Type}
    (st : CombineState V OP CV A) (state : GlobalState V) (ownProps : OP) :
    Except String (Obj V × List String) := do
  let mappedStates ← st.stateMappers.foldlM
    (fun (acc : List (Obj V) × List String) stateMapper => do
      let res ← stateMapper state ownProps
      pure (acc.1 ++ [res.1], acc.2 ++ res.2))
    ((([] : Obj V) :: []), [])
  match objAssignSpread mappedStates.1 with
  | .ok merged => pure (merged, mappedStates.2)
  | .error e => .error e

/-- The `combinedMapDispatchToPropsObjects` value built when the combined
connector is applied to a component (src/index.js 432):
`Object.assign(...mappedDispatches)`. -/
def combinedMapDispatchToPropsObjects {V OP CV A : Type}
    (st : CombineState V OP CV A) : Except String (Obj A) :=
  objAssignSpread st.mappedDispatches

/-- `combinedConnectors(TargetComponent)` (src/index.js 422-441) hands the
combined state mapper and the combined dispatch object to the external
react-redux `connect`; its observable behaviour is that pair. -/
def combinedConnectors {V OP CV A : Type} (st : CombineState V OP CV A) :
    (GlobalState V → OP → Except String (Obj V × List String)) × Except String (Obj A) :=
  (combinedMapStateToPropsFuncs st, combinedMapDispatchToPropsObjects st)

/-- One well-formed `[connector, propsToConnect, actionsToConnect, config]`
argument array of `combineConnectors`, as destructured by its `forEach`
(src/index.js 470-472).  Omitted positions are `undefined` (`none`). -/
structure ConnectorsAndParamsEntry (V OP CV A : Type) : Type where
  connector : Connector V OP CV A
  propsToConnect : Option PropsToConnect
  actionsToConnect : Option (List ConnectEntry)
  config : Option (Obj CV)

/-- One positional argument of `combineConnectors`: either a well-formed
entry array (whose first element is a connector function, not an array) or
the misuse pattern — an array whose own first element is again an array (a
list of entry arrays passed as one argument). -/
inductive CCArg (V OP CV A : Type) : Type
  | entry (e : ConnectorsAndParamsEntry V OP CV A)
  | nestedArray (inner : List (ConnectorsAndParamsEntry V OP CV A))

/-- `combineConnectors(...connectorsAndParams)` (src/index.js 411-477) up
to the returned combined-connector value, which is determined by the final
accumulator state.  First the eager check (src/index.js 417-420): if the
first argument is an array whose first element is an array, throw `Invalid
first argument` before anything else runs.  Then the `forEach` pushes every
argument in order.  Destructuring a *later* nested-array argument binds its
first inner array as `connector`; with a second inner element present
(truthy), `pushFunc` then calls `curriedCreateMapStateToProps` on an array,
which is a `TypeError`; with at most one inner element both guards see
`undefined` and nothing is pushed. -/
def combineConnectors {V OP CV A : Type} (connectorsAndParams : List (CCArg V OP CV A)) :
    Except String (CombineState V OP CV A) :=
  if (match connectorsAndParams.head? with
      | some (.nestedArray _) => true
      | _ => false) then
    .error "Invalid first argument in call to `combineConnectors`; Use multiple arguments instead of two-dimensional Array"
  else
    connectorsAndParams.foldlM
      (fun st arg =>
        match arg with
        | .entry e => .ok (pushFunc st e.connector e.propsToConnect e.actionsToConnect e.config)
        | .nestedArray inner =>
            match inner with
            | _ :: _ :: _ => .error "TypeError: connector.curriedCreateMapStateToProps is not a function"
            | _ => .ok st)
      combineStateInit

/-! ## Shared helper lemmas about the embedded operations -/

theorem objLookup_indexReduxReducers {S P : Type}
    (reduxReducers : List (NamespacedReducer S P))
    (acc : Obj (NamespacedReducer S P)) (n : String) :
    objLookup (reduxReducers.foldl
        (fun idx r => objSet idx r.reduxNamespace r) acc) n
      = (reduxReducers.reverse.find? (fun r => r.reduxNamespace == n)).or
          (objLookup acc n) := by
  induction reduxReducers generalizing acc with
  | nil =>
      rw [List.foldl_nil, List.reverse_nil]
      cases objLookup acc n <;> rfl
  | cons r rs ih =>
      rw [List.foldl_cons, ih, List.reverse_cons, List.find?_append,
        objLookup_objSet]
      by_cases h : r.reduxNamespace = n
      · cases hfs : rs.reverse.find? (fun r' => r'.reduxNamespace == n) <;>
          simp [List.find?, hfs, h, Option.or]
      · have hb : (r.reduxNamespace == n) = false := by simp [h]
        cases hfs : rs.reverse.find? (fun r' => r'.reduxNamespace == n) <;>
          simp [List.find?, hfs, hb, Option.or, Ne.symm h]

/-! ## Claim theorems -/

/-- C2: the reducer returned by `createNamespacedReducer`, applied to
`(state, action)`, returns `reducerFunctions[action.type](state, action)`
when an entry for `action.type` is present in the table, and returns the
state unchanged when it is absent; when the incoming state is `undefined`
the declared `initialState` is used as the state; and the returned function
carries the given namespace as its `reduxNamespace` tag. -/
theorem c2_createNamespacedReducer_behavior {S P : Type} (namespace_ : String)
    (initialState : S) (reducerFunctions : Obj (S → ReduxAction P → S))
    (action : ReduxAction P) :
    ((createNamespacedReducer namespace_ initialState reducerFunctions).reduxNamespace
        = namespace_)
  ∧ (∀ f s, objLookup reducerFunctions action.type = some f →
      (createNamespacedReducer namespace_ initialState reducerFunctions).run
          (some s) action = f s action)
  ∧ (∀ s, objLookup reducerFunctions action.type = none →
      (createNamespacedReducer namespace_ initialState reducerFunctions).run
          (some s) action = s)
  ∧ (∀ f, objLookup reducerFunctions action.type = some f →
      (createNamespacedReducer namespace_ initialState reducerFunctions).run
          none action = f initialState action)
  ∧ (objLookup reducerFunctions action.type = none →
      (createNamespacedReducer namespace_ initialState reducerFunctions).run
          none action = initialState) := by
  refine ⟨rfl, ?_, ?_, ?_, ?_⟩ <;> intros <;>
    simp [createNamespacedReducer, *]

/-- Witness for C2 at a concrete reducer table: a matched action type runs
the handler (on the given state, and on `initialState` when the state is
`undefined`), an unmatched type is the identity. -/
theorem c2_createNamespacedReducer_behavior_witness :
    (createNamespacedReducer "models/puppy" (0 : Nat)
        [("models/puppy/INC", fun s (_ : ReduxAction Unit) => s + 1)]).run
        (some 4) ⟨"models/puppy/INC", ()⟩ = 5
  ∧ (createNamespacedReducer "models/puppy" (0 : Nat)
        [("models/puppy/INC", fun s (_ : ReduxAction Unit) => s + 1)]).run
        (some 4) ⟨"models/puppy/DEC", ()⟩ = 4
  ∧ (createNamespacedReducer "models/puppy" (0 : Nat)
        [("models/puppy/INC", fun s (_ : ReduxAction Unit) => s + 1)]).run
        none ⟨"models/puppy/INC", ()⟩ = 1 := by
  refine ⟨?_, ?_, ?_⟩
  · exact (c2_createNamespacedReducer_behavior "models/puppy" 0
      [("models/puppy/INC", fun s (_ : ReduxAction Unit) => s + 1)]
      ⟨"models/puppy/INC", ()⟩).2.1 _ 4 rfl
  · exact (c2_createNamespacedReducer_behavior "models/puppy" 0
      [("models/puppy/INC", fun s (_ : ReduxAction Unit) => s + 1)]
      ⟨"models/puppy/DEC", ()⟩).2.2.1 4 rfl
  · exact (c2_createNamespacedReducer_behavior "models/puppy" 0
      [("models/puppy/INC", fun s (_ : ReduxAction Unit) => s + 1)]
      ⟨"models/puppy/INC", ()⟩).2.2.2.1 _ rfl

/-- C3: when the global state has no slice under the namespace of the
connector,
the produced state mapping raises the fatal `Unable to find state
namespace` error naming that namespace, whatever `propsToConnect` was
requested; and a non-array `propsToConnect` with the slice present yields
an empty props object with no error and no warning. -/
theorem c3_missing_namespace_fatal {V OP CV : Type} (reduxNamespace : String)
    (propOverrides : Obj (OverrideFn V OP CV)) (config : Option (Obj CV))
    (globalState : GlobalState V) (ownProps : OP) :
    (∀ propsToConnect : PropsToConnect,
        objLookup globalState reduxNamespace = none →
        createMapStateToPropsFunc reduxNamespace propOverrides propsToConnect
            config globalState ownProps
          = .error ("Unable to find state namespace \x27" ++ reduxNamespace
              ++ "\x27; Perhaps you forgot to add the namespaced reducer to your call to \x27combineNamespacedReducers\x27?"))
  ∧ (∀ state, objLookup globalState reduxNamespace = some state →
        createMapStateToPropsFunc reduxNamespace propOverrides .notArray
            config globalState ownProps = .ok ([], [])) := by
  constructor
  · intro propsToConnect h
    simp [createMapStateToPropsFunc, h]
  · intro state h
    simp [createMapStateToPropsFunc, h]

/-- Witness for C3: an empty global state has no `models/puppy` slice, so
any request errors, naming the namespace; with the slice present, a
non-array `propsToConnect` maps to `{}`. -/
theorem c3_missing_namespace_fatal_witness :
    @createMapStateToPropsFunc Nat Unit Unit "models/puppy" []
        (.arr [.str "count"]) none ([] : GlobalState Nat) ()
      = .error ("Unable to find state namespace \x27" ++ "models/puppy"
          ++ "\x27; Perhaps you forgot to add the namespaced reducer to your call to \x27combineNamespacedReducers\x27?")
  ∧ @createMapStateToPropsFunc Nat Unit Unit "models/puppy" []
        .notArray none [("models/puppy", [("count", (5 : Nat))])] ()
      = .ok ([], []) := by
  constructor
  · exact (c3_missing_namespace_fatal "models/puppy" [] none [] ()).1
      (.arr [.str "count"]) rfl
  · exact (c3_missing_namespace_fatal "models/puppy" [] none
      [("models/puppy", [("count", (5 : Nat))])] ()).2 _ rfl

/-- C5 is a code bug: the claim (and the JSDoc `@throws` of the function
itself)
says a falsy `connectorName` / `propName` / `requiredConfigName` throws,
but the source appends to `missingParams` with `Array.prototype.concat`,
whose result is discarded, so `missingParams.length` is always `0` and the
throw is unreachable.  At the failing input — `connectorName` the empty
string (falsy), a well-formed `config` — the call returns normally. -/
theorem c5_falsy_connectorName_does_not_throw :
    checkConfigPrerequisiteSatisfied "" "puppyRecords" "max"
      (.obj [("max", .str "10")]) = .ok () := rfl

/-- C6: if the first positional argument of `combineConnectors` is an array
whose own first element is also an array, the call raises the fatal
`Invalid first argument` error immediately — whatever else follows, and
without running any state or dispatch mapping. -/
theorem c6_nested_first_arg_fatal {V OP CV A : Type}
    (inner : List (ConnectorsAndParamsEntry V OP CV A))
    (rest : List (CCArg V OP CV A)) :
    combineConnectors (CCArg.nestedArray inner :: rest)
      = .error "Invalid first argument in call to `combineConnectors`; Use multiple arguments instead of two-dimensional Array" := rfl

/-- C7: `combineNamespacedReducers` hands `combineReducers` the object
built by indexing each reducer under its `reduxNamespace`, with no
uniqueness check and no possible error: the entry found under a namespace
is the *last* reducer with that namespace in argument order (`find?` over
the reversed argument list), so a repeated namespace silently overwrites
the earlier reducers. -/
theorem c7_namespace_collision_last_wins {S P R : Type}
    (combineReducers : Obj (NamespacedReducer S P) → R)
    (reduxReducers : List (NamespacedReducer S P)) (n : String) :
    (combineNamespacedReducers combineReducers reduxReducers
        = combineReducers (indexReduxReducers reduxReducers))
  ∧ (objLookup (indexReduxReducers reduxReducers) n
        = reduxReducers.reverse.find? (fun r => r.reduxNamespace == n)) := by
  refine ⟨rfl, ?_⟩
  rw [indexReduxReducers, objLookup_indexReduxReducers]
  cases reduxReducers.reverse.find? (fun r => r.reduxNamespace == n) <;> rfl

/-- C9: calling a connector produced by `createNamespaceConnector` with
`actionsToConnect` omitted/`undefined` yields the empty dispatch mapping
with no warnings, both through the direct connector call and through its
curried dispatch-mapper builder (`actionsToConnect || []` replaces the
`undefined` with `[]` before the mapping runs, and the mapping of `[]` is
empty). -/
theorem c9_actions_omitted_empty_dispatch {V OP CV A : Type}
    (reduxNamespace : String) (allActionsObj : Obj A)
    (propOverrides : Obj (OverrideFn V OP CV))
    (propsToConnect : Option PropsToConnect) (config : Option (Obj CV)) :
    (((createNamespaceConnector reduxNamespace allActionsObj
          propOverrides).call propsToConnect none config).2
        = (([] : Obj A), ([] : List String)))
  ∧ ((createNamespaceConnector reduxNamespace allActionsObj
        propOverrides).curriedCreateMapDispatchToProps none
        = (([] : Obj A), ([] : List String)))
  ∧ (createMapDispatchToPropsObj allActionsObj []
        = (([] : Obj A), ([] : List String))) :=
  ⟨rfl, rfl, rfl⟩

/-- C10: `combineConnectors()` with no arguments (and no pushes) still
yields a total combined binding: the accumulators are seeded with
`stateMappers = []` and `mappedDispatches = [{}]`, the combined state
mapper returns `{}` for every `(state, ownProps)`, and the combined
dispatch object is `{}` — while `Object.assign` applied to an *empty*
argument list (which the seeding prevents) would throw a `TypeError`. -/
theorem c10_empty_combineConnectors_total {V OP CV A : Type}
    (state : GlobalState V) (ownProps : OP) :
    (combineConnectors ([] : List (CCArg V OP CV A)) = .ok combineStateInit)
  ∧ ((combineStateInit : CombineState V OP CV A).stateMappers = [])
  ∧ ((combineStateInit : CombineState V OP CV A).mappedDispatches
        = [([] : Obj A)])
  ∧ (combinedMapStateToPropsFuncs (combineStateInit : CombineState V OP CV A)
        state ownProps = .ok (([] : Obj V), ([] : List String)))
  ∧ (combinedMapDispatchToPropsObjects
        (combineStateInit : CombineState V OP CV A) = .ok ([] : Obj A))
  ∧ (objAssignSpread ([] : List (Obj A))
        = .error "TypeError: Cannot convert undefined or null to object") :=
  ⟨rfl, rfl, rfl, rfl, rfl, rfl⟩

theorem mapStateReduceStep_assign {V OP CV : Type}
    (propOverrides : Obj (OverrideFn V OP CV)) (state : Obj V) (ownProps : OP)
    (config : Option (Obj CV)) (acc : Obj V × List String) (e : ConnectEntry) :
    mapStateReduceStep propOverrides state ownProps config acc e
      = (objAssign acc.1
            (mapStateReduceStep propOverrides state ownProps config ([], []) e).1,
         acc.2
           ++ (mapStateReduceStep propOverrides state ownProps config ([], []) e).2) := by
  rcases e with s | r
  · cases hov : objLookup propOverrides s with
    | some f =>
        simp [mapStateReduceStep, ConnectEntry.asKey, hov, objAssign, objSet, objHas]
    | none =>
        cases hst : objLookup state s with
        | some v =>
            simp [mapStateReduceStep, ConnectEntry.asKey, hov, hst, objAssign,
              objSet, objHas]
        | none =>
            simp [mapStateReduceStep, ConnectEntry.asKey, hov, hst, objAssign]
  · cases hov : objLookup propOverrides "[object Object]" with
    | some f =>
        simp [mapStateReduceStep, ConnectEntry.asKey, hov, objAssign, objSet, objHas]
    | none =>
        cases hst : objLookup state r.actionOrStateIndex with
        | some v =>
            simp [mapStateReduceStep, ConnectEntry.asKey, hov, hst, objAssign,
              objSet, objHas]
        | none =>
            cases hov2 : objLookup propOverrides r.actionOrStateIndex with
            | some f =>
                simp [mapStateReduceStep, ConnectEntry.asKey, hov, hst, hov2,
                  objAssign, objSet, objHas]
            | none =>
                simp [mapStateReduceStep, ConnectEntry.asKey, hov, hst, hov2,
                  objAssign]

theorem mapDispatchReduceStep_assign {A : Type} (allActionsObj : Obj A)
    (acc : Obj A × List String) (e : ConnectEntry) :
    mapDispatchReduceStep allActionsObj acc e
      = (objAssign acc.1 (mapDispatchReduceStep allActionsObj ([], []) e).1,
         acc.2 ++ (mapDispatchReduceStep allActionsObj ([], []) e).2) := by
  rcases e with s | r
  · cases hov : objLookup allActionsObj s with
    | some f => simp [mapDispatchReduceStep, hov, objAssign, objSet, objHas]
    | none => simp [mapDispatchReduceStep, hov, objAssign]
  · cases hov : objLookup allActionsObj r.actionOrStateIndex with
    | some f => simp [mapDispatchReduceStep, hov, objAssign, objSet, objHas]
    | none => simp [mapDispatchReduceStep, hov, objAssign]

/-- C1: per-entry resolution of the state mapping, with the namespace slice
present.  A callable override registered under the property key of the
entry
wins (also when the state container has a same-named key); otherwise a
plain string present in the state container passes through verbatim;
otherwise a renaming directive whose source key is in the state container
passes through under the target name; otherwise a renaming directive whose
source key is in `propOverrides` derives via that override under the target
name; otherwise the entry is omitted and one warning is emitted.  The
mapping never errors when the slice is present, and a list of entries is
resolved entry by entry (appending one entry merges its singleton result on
the right). -/
theorem c1_mapState_precedence {V OP CV : Type} (reduxNamespace : String)
    (propOverrides : Obj (OverrideFn V OP CV)) (state : Obj V) (ownProps : OP)
    (config : Option (Obj CV)) (globalState : GlobalState V)
    (hstate : objLookup globalState reduxNamespace = some state) :
    (∀ s f, objLookup propOverrides s = some f →
        createMapStateToPropsFunc reduxNamespace propOverrides (.arr [.str s])
            config globalState ownProps
          = .ok ([(s, f state ownProps config)], []))
  ∧ (∀ s v, objLookup propOverrides s = none → objLookup state s = some v →
        createMapStateToPropsFunc reduxNamespace propOverrides (.arr [.str s])
            config globalState ownProps = .ok ([(s, v)], []))
  ∧ (∀ src tgt v, objLookup propOverrides "[object Object]" = none →
        objLookup state src = some v →
        createMapStateToPropsFunc reduxNamespace propOverrides
            (.arr [.renamer ⟨src, tgt⟩]) config globalState ownProps
          = .ok ([(tgt, v)], []))
  ∧ (∀ src tgt f, objLookup propOverrides "[object Object]" = none →
        objLookup state src = none → objLookup propOverrides src = some f →
        createMapStateToPropsFunc reduxNamespace propOverrides
            (.arr [.renamer ⟨src, tgt⟩]) config globalState ownProps
          = .ok ([(tgt, f state ownProps config)], []))
  ∧ (∀ s, objLookup propOverrides s = none → objLookup state s = none →
        createMapStateToPropsFunc reduxNamespace propOverrides (.arr [.str s])
            config globalState ownProps
          = .ok ([], ["Warning: Attempted to map invalid state key name " ++ s]))
  ∧ (∀ src tgt, objLookup propOverrides "[object Object]" = none →
        objLookup state src = none → objLookup propOverrides src = none →
        createMapStateToPropsFunc reduxNamespace propOverrides
            (.arr [.renamer ⟨src, tgt⟩]) config globalState ownProps
          = .ok ([], ["Warning: Attempted to map invalid state key name " ++ src]))
  ∧ (∀ entries, ∃ res,
        createMapStateToPropsFunc reduxNamespace propOverrides (.arr entries)
            config globalState ownProps = .ok res)
  ∧ (∀ entries e o w o₁ w₁,
        createMapStateToPropsFunc reduxNamespace propOverrides (.arr entries)
            config globalState ownProps = .ok (o, w) →
        createMapStateToPropsFunc reduxNamespace propOverrides (.arr [e])
            config globalState ownProps = .ok (o₁, w₁) →
        createMapStateToPropsFunc reduxNamespace propOverrides
            (.arr (entries ++ [e])) config globalState ownProps
          = .ok (objAssign o o₁, w ++ w₁)) := by
  refine ⟨?_, ?_, ?_, ?_, ?_, ?_, ?_, ?_⟩
  · intro s f h
    simp [createMapStateToPropsFunc, hstate, mapStateReduceStep,
      ConnectEntry.asKey, h, objSet, objHas]
  · intro s v hov hst
    simp [createMapStateToPropsFunc, hstate, mapStateReduceStep,
      ConnectEntry.asKey, hov, hst, objSet, objHas]
  · intro src tgt v hov hst
    simp [createMapStateToPropsFunc, hstate, mapStateReduceStep,
      ConnectEntry.asKey, hov, hst, objSet, objHas]
  · intro src tgt f hov hst hov2
    simp [createMapStateToPropsFunc, hstate, mapStateReduceStep,
      ConnectEntry.asKey, hov, hst, hov2, objSet, objHas]
  · intro s hov hst
    simp [createMapStateToPropsFunc, hstate, mapStateReduceStep,
      ConnectEntry.asKey, hov, hst]
  · intro src tgt hov hst hov2
    simp [createMapStateToPropsFunc, hstate, mapStateReduceStep,
      ConnectEntry.asKey, hov, hst, hov2]
  · intro entries
    refine ⟨entries.foldl (mapStateReduceStep propOverrides state ownProps config)
      ([], []), ?_⟩
    simp [createMapStateToPropsFunc, hstate]
  · intro entries e o w o₁ w₁ h₁ h₂
    simp only [createMapStateToPropsFunc, hstate, List.foldl_cons,
      List.foldl_nil] at h₁ h₂ ⊢
    injection h₁ with h₁
    injection h₂ with h₂
    rw [List.foldl_append, List.foldl_cons, List.foldl_nil, h₁,
      mapStateReduceStep_assign, h₂]

/-- Witness for C1 over concrete data: an override beats the same-named
state key; direct and renamed state pass-through work; a renamed override
works; unknown keys warn and are omitted; a two-entry list resolves entry
by entry. -/
theorem c1_mapState_precedence_witness :
    @createMapStateToPropsFunc Nat Unit Unit "n"
        [("a", fun st _ _ => (objLookup st "b").getD 0)] (.arr [.str "a"])
        none [("n", [("a", (5 : Nat)), ("b", 7)])] () = .ok ([("a", 7)], [])
  ∧ @createMapStateToPropsFunc Nat Unit Unit "n"
        [("a", fun st _ _ => (objLookup st "b").getD 0)] (.arr [.str "b"])
        none [("n", [("a", (5 : Nat)), ("b", 7)])] () = .ok ([("b", 7)], [])
  ∧ @createMapStateToPropsFunc Nat Unit Unit "n"
        [("a", fun st _ _ => (objLookup st "b").getD 0)]
        (.arr [.renamer ⟨"b", "total"⟩]) none
        [("n", [("a", (5 : Nat)), ("b", 7)])] () = .ok ([("total", 7)], [])
  ∧ @createMapStateToPropsFunc Nat Unit Unit "n"
        [("a", fun st _ _ => (objLookup st "b").getD 0)]
        (.arr [.renamer ⟨"a", "t"⟩]) none [("n", [("b", (7 : Nat))])] ()
      = .ok ([("t", 7)], [])
  ∧ @createMapStateToPropsFunc Nat Unit Unit "n"
        [("a", fun st _ _ => (objLookup st "b").getD 0)]
        (.arr [.str "missing"]) none [("n", [("a", (5 : Nat)), ("b", 7)])] ()
      = .ok ([], ["Warning: Attempted to map invalid state key name " ++ "missing"])
  ∧ @createMapStateToPropsFunc Nat Unit Unit "n"
        [("a", fun st _ _ => (objLookup st "b").getD 0)]
        (.arr [.renamer ⟨"missing", "t"⟩]) none
        [("n", [("a", (5 : Nat)), ("b", 7)])] ()
      = .ok ([], ["Warning: Attempted to map invalid state key name " ++ "missing"])
  ∧ (∃ res, @createMapStateToPropsFunc Nat Unit Unit "n"
        [("a", fun st _ _ => (objLookup st "b").getD 0)]
        (.arr [.str "a", .str "missing"]) none
        [("n", [("a", (5 : Nat)), ("b", 7)])] () = .ok res)
  ∧ @createMapStateToPropsFunc Nat Unit Unit "n"
        [("a", fun st _ _ => (objLookup st "b").getD 0)]
        (.arr [.str "b", .str "missing"]) none
        [("n", [("a", (5 : Nat)), ("b", 7)])] ()
      = .ok (objAssign [("b", 7)] [],
          [] ++ ["Warning: Attempted to map invalid state key name " ++ "missing"]) := by
  refine ⟨?_, ?_, ?_, ?_, ?_, ?_, ?_, ?_⟩
  · exact (c1_mapState_precedence "n" [("a", fun st _ _ => (objLookup st "b").getD 0)]
      [("a", (5 : Nat)), ("b", 7)] () none
      [("n", [("a", (5 : Nat)), ("b", 7)])] rfl).1 "a" _ rfl
  · exact (c1_mapState_precedence "n" [("a", fun st _ _ => (objLookup st "b").getD 0)]
      [("a", (5 : Nat)), ("b", 7)] () none
      [("n", [("a", (5 : Nat)), ("b", 7)])] rfl).2.1 "b" 7 rfl rfl
  · exact (c1_mapState_precedence "n" [("a", fun st _ _ => (objLookup st "b").getD 0)]
      [("a", (5 : Nat)), ("b", 7)] () none
      [("n", [("a", (5 : Nat)), ("b", 7)])] rfl).2.2.1 "b" "total" 7 rfl rfl
  · exact (c1_mapState_precedence "n" [("a", fun st _ _ => (objLookup st "b").getD 0)]
      [("b", (7 : Nat))] () none [("n", [("b", (7 : Nat))])] rfl).2.2.2.1 "a" "t" _ rfl rfl rfl
  · exact (c1_mapState_precedence "n" [("a", fun st _ _ => (objLookup st "b").getD 0)]
      [("a", (5 : Nat)), ("b", 7)] () none
      [("n", [("a", (5 : Nat)), ("b", 7)])] rfl).2.2.2.2.1 "missing" rfl rfl
  · exact (c1_mapState_precedence "n" [("a", fun st _ _ => (objLookup st "b").getD 0)]
      [("a", (5 : Nat)), ("b", 7)] () none
      [("n", [("a", (5 : Nat)), ("b", 7)])] rfl).2.2.2.2.2.1 "missing" "t" rfl rfl rfl
  · exact (c1_mapState_precedence "n" [("a", fun st _ _ => (objLookup st "b").getD 0)]
      [("a", (5 : Nat)), ("b", 7)] () none
      [("n", [("a", (5 : Nat)), ("b", 7)])] rfl).2.2.2.2.2.2.1
      [.str "a", .str "missing"]
  · exact (c1_mapState_precedence "n" [("a", fun st _ _ => (objLookup st "b").getD 0)]
      [("a", (5 : Nat)), ("b", 7)] () none
      [("n", [("a", (5 : Nat)), ("b", 7)])] rfl).2.2.2.2.2.2.2
      [.str "b"] (.str "missing") [("b", 7)] [] []
      ["Warning: Attempted to map invalid state key name " ++ "missing"] rfl rfl

/-- C8: per-entry resolution of the dispatch mapping: a plain-string entry
present in the action table passes through verbatim under its own name; a
renaming-directive entry whose source key is present passes through under
the target prop name; any other entry is omitted with one warning (and the
mapping, being a total function into a plain pair, never raises an error);
a list of entries is resolved entry by entry. -/
theorem c8_mapDispatch_resolution {A : Type} (allActionsObj : Obj A) :
    (∀ s f, objLookup allActionsObj s = some f →
        createMapDispatchToPropsObj allActionsObj [.str s] = ([(s, f)], []))
  ∧ (∀ src tgt f, objLookup allActionsObj src = some f →
        createMapDispatchToPropsObj allActionsObj [.renamer ⟨src, tgt⟩]
          = ([(tgt, f)], []))
  ∧ (∀ s, objLookup allActionsObj s = none →
        createMapDispatchToPropsObj allActionsObj [.str s]
          = ([], ["Warning: Attempted to map invalid action name " ++ s]))
  ∧ (∀ src tgt, objLookup allActionsObj src = none →
        createMapDispatchToPropsObj allActionsObj [.renamer ⟨src, tgt⟩]
          = ([], ["Warning: Attempted to map invalid action name [object Object]"]))
  ∧ (∀ entries e,
        createMapDispatchToPropsObj allActionsObj (entries ++ [e])
          = (objAssign (createMapDispatchToPropsObj allActionsObj entries).1
                (createMapDispatchToPropsObj allActionsObj [e]).1,
             (createMapDispatchToPropsObj allActionsObj entries).2
               ++ (createMapDispatchToPropsObj allActionsObj [e]).2)) := by
  refine ⟨?_, ?_, ?_, ?_, ?_⟩
  · intro s f h
    simp [createMapDispatchToPropsObj, mapDispatchReduceStep, h, objSet, objHas]
  · intro src tgt f h
    simp [createMapDispatchToPropsObj, mapDispatchReduceStep, h, objSet, objHas]
  · intro s h
    simp [createMapDispatchToPropsObj, mapDispatchReduceStep, h]
  · intro src tgt h
    simp [createMapDispatchToPropsObj, mapDispatchReduceStep, h]
  · intro entries e
    simp only [createMapDispatchToPropsObj, List.foldl_append, List.foldl_cons,
      List.foldl_nil]
    exact mapDispatchReduceStep_assign allActionsObj _ e

/-- Witness for C8 over a concrete action table: verbatim pass-through,
renamed pass-through, and the two warning cases. -/
theorem c8_mapDispatch_resolution_witness :
    createMapDispatchToPropsObj [("load", (1 : Nat)), ("del", 2)] [.str "load"]
      = ([("load", 1)], [])
  ∧ createMapDispatchToPropsObj [("load", (1 : Nat)), ("del", 2)]
        [.renamer ⟨"load", "fetch"⟩] = ([("fetch", 1)], [])
  ∧ createMapDispatchToPropsObj [("load", (1 : Nat)), ("del", 2)] [.str "nope"]
      = ([], ["Warning: Attempted to map invalid action name " ++ "nope"])
  ∧ createMapDispatchToPropsObj [("load", (1 : Nat)), ("del", 2)]
        [.renamer ⟨"nope", "x"⟩]
      = ([], ["Warning: Attempted to map invalid action name [object Object]"]) := by
  refine ⟨?_, ?_, ?_, ?_⟩
  · exact (c8_mapDispatch_resolution [("load", (1 : Nat)), ("del", 2)]).1
      "load" 1 rfl
  · exact (c8_mapDispatch_resolution [("load", (1 : Nat)), ("del", 2)]).2.1
      "load" "fetch" 1 rfl
  · exact (c8_mapDispatch_resolution [("load", (1 : Nat)), ("del", 2)]).2.2.1
      "nope" rfl
  · exact (c8_mapDispatch_resolution [("load", (1 : Nat)), ("del", 2)]).2.2.2.1
      "nope" "x" rfl

theorem combineConnectors_foldlM_entries {V OP CV A : Type}
    (entries : List (ConnectorsAndParamsEntry V OP CV A))
    (st : CombineState V OP CV A) :
    ((entries.map CCArg.entry).foldlM
        (fun st arg =>
          match arg with
          | .entry e =>
              Except.ok (pushFunc st e.connector e.propsToConnect
                e.actionsToConnect e.config)
          | .nestedArray inner =>
              match inner with
              | _ :: _ :: _ =>
                  Except.error "TypeError: connector.curriedCreateMapStateToProps is not a function"
              | _ => Except.ok st)
        st)
      = Except.ok (entries.foldl
          (fun st e => pushFunc st e.connector e.propsToConnect
            e.actionsToConnect e.config)
          st) := by
  induction entries generalizing st with
  | nil => rfl
  | cons e es ih => exact ih _

theorem combineConnectors_entries {V OP CV A : Type}
    (entries : List (ConnectorsAndParamsEntry V OP CV A)) :
    combineConnectors (entries.map CCArg.entry)
      = Except.ok (entries.foldl
          (fun st e => pushFunc st e.connector e.propsToConnect
            e.actionsToConnect e.config)
          combineStateInit) := by
  have hcond : (match (entries.map CCArg.entry).head? with
      | some (.nestedArray _) => true
      | _ => false) = false := by
    cases entries <;> rfl
  unfold combineConnectors
  rw [hcond]
  simp only [Bool.false_eq_true, if_false]
  exact combineConnectors_foldlM_entries entries combineStateInit

theorem stateMappers_foldl_push {V OP CV A : Type}
    (entries : List (ConnectorsAndParamsEntry V OP CV A))
    (st : CombineState V OP CV A) :
    (entries.foldl
        (fun st e => pushFunc st e.connector e.propsToConnect
          e.actionsToConnect e.config)
        st).stateMappers
      = st.stateMappers
          ++ entries.filterMap (fun e => e.propsToConnect.map
              (fun p => e.connector.curriedCreateMapStateToProps p e.config)) := by
  induction entries generalizing st with
  | nil => simp
  | cons e es ih =>
      rw [List.foldl_cons, ih]
      rcases e with ⟨conn, props, actions, config⟩
      rcases props with _ | p <;> rcases actions with _ | a <;>
        simp [pushFunc, List.filterMap_cons]

theorem mappedDispatches_foldl_push {V OP CV A : Type}
    (entries : List (ConnectorsAndParamsEntry V OP CV A))
    (st : CombineState V OP CV A) :
    (entries.foldl
        (fun st e => pushFunc st e.connector e.propsToConnect
          e.actionsToConnect e.config)
        st).mappedDispatches
      = st.mappedDispatches
          ++ entries.filterMap (fun e => e.actionsToConnect.map
              (fun a => (e.connector.curriedCreateMapDispatchToProps (some a)).1)) := by
  induction entries generalizing st with
  | nil => simp
  | cons e es ih =>
      rw [List.foldl_cons, ih]
      rcases e with ⟨conn, props, actions, config⟩
      rcases props with _ | p <;> rcases actions with _ | a <;>
        simp [pushFunc, List.filterMap_cons]

theorem except_bind_ok {ε α β : Type} (a : α) (f : α → Except ε β) :
    ((Except.ok a : Except ε α) >>= f) = f a := rfl

theorem except_pure_eq_ok {ε α : Type} (a : α) :
    (pure a : Except ε α) = Except.ok a := rfl

theorem except_bind_pure {ε α β : Type} (a : α) (f : α → Except ε β) :
    ((pure a : Except ε α) >>= f) = f a := rfl

theorem foldlM_stateMappers_ok {V OP : Type}
    (ms : List (GlobalState V → OP → Except String (Obj V × List String)))
    (outs : List (Obj V × List String)) (state : GlobalState V) (ownProps : OP)
    (h : List.Forall₂ (fun m res => m state ownProps = Except.ok res) ms outs) :
    ∀ acc : List (Obj V) × List String,
    (ms.foldlM
        (fun (acc : List (Obj V) × List String) stateMapper => do
          let res ← stateMapper state ownProps
          pure (acc.1 ++ [res.1], acc.2 ++ res.2))
        acc)
      = Except.ok (acc.1 ++ outs.map Prod.fst,
          acc.2 ++ (outs.map Prod.snd).flatten) := by
  induction h with
  | nil =>
      intro acc
      show Except.ok acc = _
      simp
  | cons h₁ h₂ ih =>
      intro acc
      rw [List.foldlM_cons]
      simp only [h₁, except_bind_ok, except_bind_pure]
      rw [ih]
      simp

theorem nodupKeys_foldl_mapStateReduceStep {V OP CV : Type}
    (propOverrides : Obj (OverrideFn V OP CV)) (state : Obj V) (ownProps : OP)
    (config : Option (Obj CV)) (entries : List ConnectEntry)
    (acc : Obj V × List String) (h : NodupKeys acc.1) :
    NodupKeys ((entries.foldl
        (mapStateReduceStep propOverrides state ownProps config) acc).1) := by
  induction entries generalizing acc with
  | nil => exact h
  | cons e es ih =>
      rw [List.foldl_cons]
      apply ih
      rcases e with s | r
      · cases hov : objLookup propOverrides s with
        | some f =>
            simpa [mapStateReduceStep, ConnectEntry.asKey, hov] using
              nodupKeys_objSet _ _ _ h
        | none =>
            cases hst : objLookup state s with
            | some v =>
                simpa [mapStateReduceStep, ConnectEntry.asKey, hov, hst] using
                  nodupKeys_objSet _ _ _ h
            | none =>
                simpa [mapStateReduceStep, ConnectEntry.asKey, hov, hst] using h
      · cases hov : objLookup propOverrides "[object Object]" with
        | some f =>
            simpa [mapStateReduceStep, ConnectEntry.asKey, hov] using
              nodupKeys_objSet _ _ _ h
        | none =>
            cases hst : objLookup state r.actionOrStateIndex with
            | some v =>
                simpa [mapStateReduceStep, ConnectEntry.asKey, hov, hst] using
                  nodupKeys_objSet _ _ _ h
            | none =>
                cases hov2 : objLookup propOverrides r.actionOrStateIndex with
                | some f =>
                    simpa [mapStateReduceStep, ConnectEntry.asKey, hov, hst, hov2]
                      using nodupKeys_objSet _ _ _ h
                | none =>
                    simpa [mapStateReduceStep, ConnectEntry.asKey, hov, hst, hov2]
                      using h

theorem nodupKeys_foldl_mapDispatchReduceStep {A : Type} (allActionsObj : Obj A)
    (entries : List ConnectEntry) (acc : Obj A × List String)
    (h : NodupKeys acc.1) :
    NodupKeys ((entries.foldl (mapDispatchReduceStep allActionsObj) acc).1) := by
  induction entries generalizing acc with
  | nil => exact h
  | cons e es ih =>
      rw [List.foldl_cons]
      apply ih
      rcases e with s | r
      · cases hov : objLookup allActionsObj s with
        | some f =>
            simpa [mapDispatchReduceStep, hov] using nodupKeys_objSet _ _ _ h
        | none => simpa [mapDispatchReduceStep, hov] using h
      · cases hov : objLookup allActionsObj r.actionOrStateIndex with
        | some f =>
            simpa [mapDispatchReduceStep, hov] using nodupKeys_objSet _ _ _ h
        | none => simpa [mapDispatchReduceStep, hov] using h

theorem combinedMapState_forall₂ {V OP CV A : Type} (st : CombineState V OP CV A)
    (state : GlobalState V) (ownProps : OP) (outs : List (Obj V × List String))
    (h : List.Forall₂ (fun m res => m state ownProps = Except.ok res)
      st.stateMappers outs) :
    combinedMapStateToPropsFuncs st state ownProps
      = Except.ok ((outs.map Prod.fst).foldl objAssign [],
          (outs.map Prod.snd).flatten) := by
  unfold combinedMapStateToPropsFuncs
  rw [foldlM_stateMappers_ok _ _ _ _ h]
  simp only [except_bind_ok]
  rfl

/-- C4: connector contributions accumulate in the order
push/construction calls were issued — `combineConnectors` over argument
entries is the left fold of `pushFunc`, whose `stateMappers` are the pushed
curried state mappers in order and whose `mappedDispatches` are the seed
`{}` followed by the pushed dispatch objects in order.  On application,
the combined state props are the left-to-right `Object.assign` merge of
the output of every accumulated state mapper on `(state, ownProps)`, the
combined dispatch object is the left-to-right merge of all accumulated
dispatch objects, and on a key collision the later (right-most, hence
later-pushed) object wins the key: the merged lookup is the first hit
scanning the contributions from the right.  The last two conjuncts supply
the duplicate-free-keys facts making that collision statement apply to the
objects the connectors actually produce. -/
theorem c4_combine_order_and_merge {V OP CV A : Type}
    (entries : List (ConnectorsAndParamsEntry V OP CV A))
    (state : GlobalState V) (ownProps : OP) :
    (combineConnectors (entries.map CCArg.entry)
        = Except.ok (entries.foldl
            (fun st e => pushFunc st e.connector e.propsToConnect
              e.actionsToConnect e.config)
            combineStateInit))
  ∧ ((entries.foldl (fun st e => pushFunc st e.connector e.propsToConnect
          e.actionsToConnect e.config) combineStateInit).stateMappers
        = entries.filterMap (fun e => e.propsToConnect.map
            (fun p => e.connector.curriedCreateMapStateToProps p e.config)))
  ∧ ((entries.foldl (fun st e => pushFunc st e.connector e.propsToConnect
          e.actionsToConnect e.config) combineStateInit).mappedDispatches
        = ([] : Obj A) :: entries.filterMap (fun e => e.actionsToConnect.map
            (fun a => (e.connector.curriedCreateMapDispatchToProps (some a)).1)))
  ∧ (∀ (st : CombineState V OP CV A) (outs : List (Obj V × List String)),
        List.Forall₂ (fun m res => m state ownProps = Except.ok res)
          st.stateMappers outs →
        combinedMapStateToPropsFuncs st state ownProps
          = Except.ok ((outs.map Prod.fst).foldl objAssign [],
              (outs.map Prod.snd).flatten))
  ∧ (∀ (st : CombineState V OP CV A) (ds : List (Obj A)),
        st.mappedDispatches = ([] : Obj A) :: ds →
        combinedMapDispatchToPropsObjects st
          = Except.ok (ds.foldl objAssign []))
  ∧ (∀ (os : List (Obj A)) (k : String), (∀ o ∈ os, NodupKeys o) →
        objLookup (os.foldl objAssign []) k
          = os.reverse.findSome? (fun o => objLookup o k))
  ∧ (∀ (allActionsObj : Obj A) (es : List ConnectEntry),
        NodupKeys (createMapDispatchToPropsObj allActionsObj es).1)
  ∧ (∀ (reduxNamespace : String) (propOverrides : Obj (OverrideFn V OP CV))
        (propsToConnect : PropsToConnect) (config : Option (Obj CV))
        (res : Obj V × List String),
        createMapStateToPropsFunc reduxNamespace propOverrides propsToConnect
            config state ownProps = Except.ok res →
        NodupKeys res.1) := by
  refine ⟨combineConnectors_entries entries, ?_, ?_, ?_, ?_, ?_, ?_, ?_⟩
  · rw [stateMappers_foldl_push]
    rfl
  · rw [mappedDispatches_foldl_push]
    rfl
  · intro st outs h
    exact combinedMapState_forall₂ st state ownProps outs h
  · intro st ds hds
    show objAssignSpread st.mappedDispatches = _
    rw [hds]
    rfl
  · intro os k h
    rw [objLookup_foldl_objAssign os [] k h]
    cases os.reverse.findSome? (fun o => objLookup o k) <;> rfl
  · intro allActionsObj es
    exact nodupKeys_foldl_mapDispatchReduceStep allActionsObj es ([], [])
      (by simp [NodupKeys])
  · intro reduxNamespace propOverrides propsToConnect config res h
    cases hsl : objLookup state reduxNamespace with
    | none => simp [createMapStateToPropsFunc, hsl] at h
    | some slice =>
        cases propsToConnect with
        | notArray =>
            simp only [createMapStateToPropsFunc, hsl, Except.ok.injEq] at h
            rw [← h]
            simp [NodupKeys]
        | arr es =>
            simp only [createMapStateToPropsFunc, hsl, Except.ok.injEq] at h
            rw [← h]
            exact nodupKeys_foldl_mapStateReduceStep propOverrides slice
              ownProps config es ([], []) (by simp [NodupKeys])

/-- Witness for C4 over concrete data: the output of one state mapper is the
combined state props; dispatch objects `{z:1, x:1}` then `{z:2, y:2}` merge
to `{z:2, x:1, y:2}` (later push wins on `z`); the right-biased lookup law
at key `z` gives `2`; a concretely produced mapper output has
duplicate-free keys. -/
theorem c4_combine_order_and_merge_witness :
    combinedMapStateToPropsFuncs
        ({ stateMappers := [fun _ _ => Except.ok ([("x", (1 : Nat))], [])],
           mappedDispatches := [[]], warnLog := [] } :
          CombineState Nat Unit Unit Nat) [("n", [("a", (5 : Nat))])] ()
      = Except.ok ([("x", 1)], [])
  ∧ combinedMapDispatchToPropsObjects
        ({ stateMappers := [],
           mappedDispatches :=
             [[], [("z", (1 : Nat)), ("x", 1)], [("z", 2), ("y", 2)]],
           warnLog := [] } : CombineState Nat Unit Unit Nat)
      = Except.ok [("z", 2), ("x", 1), ("y", 2)]
  ∧ objLookup
        (([[("z", (1 : Nat)), ("x", 1)], [("z", 2), ("y", 2)]]).foldl
          objAssign []) "z" = some 2
  ∧ NodupKeys
      ([("a", (5 : Nat))] : Obj Nat) := by
  have h := c4_combine_order_and_merge
    ([] : List (ConnectorsAndParamsEntry Nat Unit Unit Nat))
    [("n", [("a", (5 : Nat))])] ()
  refine ⟨?_, ?_, ?_, ?_⟩
  · exact h.2.2.2.1 _ [([("x", 1)], [])]
      (List.Forall₂.cons rfl List.Forall₂.nil)
  · exact h.2.2.2.2.1 _ [[("z", 1), ("x", 1)], [("z", 2), ("y", 2)]] rfl
  · have h6 := h.2.2.2.2.2.1 [[("z", 1), ("x", 1)], [("z", 2), ("y", 2)]] "z"
      (by decide)
    rw [h6]
    rfl
  · exact h.2.2.2.2.2.2.2 "n" [] (.arr [.str "a"]) none ([("a", 5)], []) rfl
